import Mathlib

/-!
Symbiotic coprocessor: leader election, task dispatch and attestation store.

A shallow embedding of `symbiotic/off-chain/cmd/coprocessor/main.go`.

* Go maps are total lookup functions `String → Option V` (`none` = key absent).
  The order in which `range` walks a map is not fixed by Go, so `electLeader`
  receives the enumeration it got as an explicit argument `validatorList`, tied to
  the map by `Enumerates`.
* `time.Now().Unix()` is an explicit argument `now`.
* The handlers run one after the other (the mutex `mu` and the wait group `wg` are not
  modelled); the goroutine started by `handleProcessTask` is returned as a value and
  completed later by `processTaskWorker` with the gateway's reply.
* A run-time panic (index out of range) is an explicit outcome.
* `crypto/sha256` follows FIPS 180-4 on byte lists; `big.Int` values are `Nat`.
-/

set_option maxRecDepth 100000

namespace Symbiotic

/-! ## crypto/sha256 -/

namespace Sha256

def mask32 (x : Nat) : Nat := x % 4294967296

def rotr (x n : Nat) : Nat := (x >>> n) ||| mask32 (x <<< (32 - n))

def ch (x y z : Nat) : Nat := (x &&& y) ^^^ ((x ^^^ 4294967295) &&& z)

def maj (x y z : Nat) : Nat := (x &&& y) ^^^ (x &&& z) ^^^ (y &&& z)

def bigSigma0 (x : Nat) : Nat := rotr x 2 ^^^ rotr x 13 ^^^ rotr x 22

def bigSigma1 (x : Nat) : Nat := rotr x 6 ^^^ rotr x 11 ^^^ rotr x 25

def smallSigma0 (x : Nat) : Nat := rotr x 7 ^^^ rotr x 18 ^^^ (x >>> 3)

def smallSigma1 (x : Nat) : Nat := rotr x 17 ^^^ rotr x 19 ^^^ (x >>> 10)

def K : List Nat :=
  [0x428a2f98, 0x71374491, 0xb5c0fbcf, 0xe9b5dba5, 0x3956c25b, 0x59f111f1, 0x923f82a4, 0xab1c5ed5,
   0xd807aa98, 0x12835b01, 0x243185be, 0x550c7dc3, 0x72be5d74, 0x80deb1fe, 0x9bdc06a7, 0xc19bf174,
   0xe49b69c1, 0xefbe4786, 0x0fc19dc6, 0x240ca1cc, 0x2de92c6f, 0x4a7484aa, 0x5cb0a9dc, 0x76f988da,
   0x983e5152, 0xa831c66d, 0xb00327c8, 0xbf597fc7, 0xc6e00bf3, 0xd5a79147, 0x06ca6351, 0x14292967,
   0x27b70a85, 0x2e1b2138, 0x4d2c6dfc, 0x53380d13, 0x650a7354, 0x766a0abb, 0x81c2c92e, 0x92722c85,
   0xa2bfe8a1, 0xa81a664b, 0xc24b8b70, 0xc76c51a3, 0xd192e819, 0xd6990624, 0xf40e3585, 0x106aa070,
   0x19a4c116, 0x1e376c08, 0x2748774c, 0x34b0bcb5, 0x391c0cb3, 0x4ed8aa4a, 0x5b9cca4f, 0x682e6ff3,
   0x748f82ee, 0x78a5636f, 0x84c87814, 0x8cc70208, 0x90befffa, 0xa4506ceb, 0xbef9a3f7, 0xc67178f2]

def H0 : List Nat :=
  [0x6a09e667, 0xbb67ae85, 0x3c6ef372, 0xa54ff53a, 0x510e527f, 0x9b05688c, 0x1f83d9ab, 0x5be0cd19]

/-- Big-endian value of a byte string. -/
def beValue (bs : List Nat) : Nat := bs.foldl (fun acc b => acc * 256 + b) 0

/-- The `n` low bytes of `x`, most significant first. -/
def beBytes : Nat → Nat → List Nat
  | 0, _ => []
  | n + 1, x => beBytes n (x / 256) ++ [x % 256]

/-- Message padding: a `1` bit, zeros up to 56 mod 64 bytes, then the bit length on 8 bytes. -/
def pad (msg : List Nat) : List Nat :=
  msg ++ [128] ++ List.replicate ((64 - (msg.length + 9) % 64) % 64) 0 ++ beBytes 8 (8 * msg.length)

/-- Cut a list into groups of `n` elements; `fuel` bounds the number of groups. -/
def chunks (n : Nat) : Nat → List Nat → List (List Nat)
  | 0, _ => []
  | _, [] => []
  | fuel + 1, x :: xs => (x :: xs).take n :: chunks n fuel ((x :: xs).drop n)

/-- One more word of the message schedule. -/
def extend (w : List Nat) : List Nat :=
  let t := w.length
  w ++ [mask32 (smallSigma1 (w.getD (t - 2) 0) + w.getD (t - 7) 0
                + smallSigma0 (w.getD (t - 15) 0) + w.getD (t - 16) 0)]

/-- The 64 words of the message schedule of a 64-byte block. -/
def schedule (block : List Nat) : List Nat :=
  (List.range 48).foldl (fun w _ => extend w) ((chunks 4 16 block).map beValue)

/-- One round of the compression function on the working variables `a..h`. -/
def round (s : List Nat) (kw : Nat × Nat) : List Nat :=
  match s with
  | [a, b, c, d, e, f, g, h] =>
    let t1 := h + bigSigma1 e + ch e f g + kw.1 + kw.2
    let t2 := bigSigma0 a + maj a b c
    [mask32 (t1 + t2), a, b, c, mask32 (d + t1), e, f, g]
  | _ => s

def compress (h : List Nat) (block : List Nat) : List Nat :=
  List.zipWith (fun x y => mask32 (x + y)) h ((K.zip (schedule block)).foldl round h)

/-- The 32 bytes of `sha256.Sum256(msg)`. -/
def sum256 (msg : List Nat) : List Nat :=
  (((chunks 64 (msg.length / 64 + 2) (pad msg)).foldl compress H0).map (beBytes 4)).flatten

end Sha256

/-! ## Go library values -/

/-- A Go `map[string]V`: `none` where the key is absent. -/
abbrev GoMap (V : Type) := String → Option V

/-- The result of `make(map[string]V)`. -/
def GoMap.empty {V : Type} : GoMap V := fun _ => none

/-- The assignment `m[k] = v`. -/
def GoMap.set {V : Type} (m : GoMap V) (k : String) (v : V) : GoMap V :=
  fun a => if a = k then some v else m a

/-- The read `m[k]` of a `map[string]bool`: the zero value `false` where the key is absent. -/
def GoMap.flag (m : GoMap Bool) (k : String) : Bool := (m k).getD false

/-- The read `m[k]` of a `map[string]string`: the zero value `""` where the key is absent. -/
def GoMap.str (m : GoMap String) (k : String) : String := (m k).getD ""

/-- The list `l` is a possible outcome of `for k := range m`: every key once, in some order. -/
def Enumerates {V : Type} (l : List String) (m : GoMap V) : Prop :=
  l.Nodup ∧ ∀ a, a ∈ l ↔ (m a).isSome = true

/-- The ASCII codes of the decimal digits of `n`, accumulated in front of `acc`. -/
def decimalAux : Nat → Nat → List Nat → List Nat
  | 0, _, acc => acc
  | fuel + 1, n, acc =>
    if n < 10 then (48 + n) :: acc else decimalAux fuel (n / 10) ((48 + n % 10) :: acc)

/-- The bytes of `fmt.Sprintf("%d", n)` for an unsigned `n`. -/
def sprintfD (n : Nat) : List Nat := decimalAux (n + 1) n []

/-- The value of `big.Int.Int64` on a non-negative `x`: the low 64 bits, read as two's complement. -/
def bigInt64 (x : Nat) : Int :=
  if x % 18446744073709551616 < 9223372036854775808 then ((x % 18446744073709551616 : Nat) : Int)
  else ((x % 18446744073709551616 : Nat) : Int) - 18446744073709551616

/-- The conversion `uint64(x)` of a signed value. -/
def toUint64 (x : Int) : Nat := (x % 18446744073709551616).toNat

/-- The slice read `l[i]` with a signed index: `none` is the index-out-of-range panic. -/
def sliceAt (l : List String) (i : Int) : Option String :=
  if i < 0 then none else l.get? i.toNat

/-! ## The coprocessor state -/

structure Coprocessor where
  address : String
  isLeader : Bool
  endpoint : String
  validators : GoMap Bool
  results : GoMap String
  tasks : GoMap String
  attestations : GoMap (GoMap String)
  currentRound : Nat

structure TaskRequest where
  EncryptedData : String
  TaskID : String
  Caller : String
deriving DecidableEq

structure TaskResponse where
  Result : String
  Status : String
  TaskID : String
deriving DecidableEq

structure AttestationData where
  TaskID : String
  Validator : String
  Attestation : String
  Timestamp : Int
  Signature : String
deriving DecidableEq

/-- The constructor `NewCoprocessor`; the address is derived from a fresh random key and is an argument here. -/
def NewCoprocessor (address : String) (now : Int) : Coprocessor :=
  { address := address
    isLeader := false
    endpoint := "http://34.46.119.33:3000/run/dummy"
    validators := GoMap.empty
    results := GoMap.empty
    tasks := GoMap.empty
    attestations := GoMap.empty
    currentRound := toUint64 (Int.tdiv now 1000) }

def SetupValidators (c : Coprocessor) : Coprocessor :=
  { c with validators :=
      (((c.validators.set "0x3333" true).set "0x4444" true).set "0x5555" true).set c.address true }

/-! ## Leader election -/

/-- The seed of a round: the SHA-256 digest of its decimal string, as a big-endian integer. -/
def seed (newRound : Nat) : Nat := Sha256.beValue (Sha256.sum256 (sprintfD newRound))

/-- The expression `seed.Int64() % int64(len(validatorList))` (Go's truncated remainder). -/
def leaderIndex (newRound : Nat) (n : Nat) : Int := Int.tmod (bigInt64 (seed newRound)) (n : Int)

/-- `electLeader`: the new state and the returned identity; `none` is a run-time panic. -/
def electLeader (c : Coprocessor) (now : Int) (validatorList : List String) :
    Coprocessor × Option String :=
  let newRound := toUint64 (Int.tdiv now 100)
  if newRound > c.currentRound then
    let c1 := { c with currentRound := newRound }
    if validatorList.length > 0 then
      match sliceAt validatorList (leaderIndex newRound validatorList.length) with
      | some leader => ({ c1 with isLeader := leader == c1.address }, some leader)
      | none => (c1, none)
    else (c1, some c1.address)
  else (c, some c.address)

/-! ## The external gateway -/

/-- What the HTTP round trip of `fetchFromExternal` produced: `client.Do` failed (transport
error or the 30 s timeout), `io.ReadAll` failed, or a response came back; `decoded` is the
outcome of `json.Unmarshal` on the body (`none` when it reports an error). -/
inductive GatewayReply where
  | sendError (err : String)
  | readError (err : String)
  | response (statusCode : Nat) (body : String) (decoded : Option TaskResponse)
deriving DecidableEq

/-- The UTF-8 bytes of a Go string. -/
def utf8 (s : String) : List Nat := s.toUTF8.data.toList.map UInt8.toNat

/-- The bytes of `strconv.FormatInt(x, 10)`. -/
def formatInt (x : Int) : List Nat :=
  if x < 0 then 45 :: sprintfD x.natAbs else sprintfD x.natAbs

def hexChar (n : Nat) : Char := if n < 10 then Char.ofNat (48 + n) else Char.ofNat (87 + n)

/-- The string `hex.EncodeToString(bs)`. -/
def hexEncode (bs : List Nat) : String :=
  String.mk (bs.flatMap fun b => [hexChar (b / 16), hexChar (b % 16)])

def generateTaskID (encryptedData : String) (now : Int) : String :=
  hexEncode (Sha256.sum256 (utf8 encryptedData ++ formatInt now))

/-- The method `fetchFromExternal`, from the point where the request has been sent. Building the
request cannot fail for the fixed endpoint, so those two error returns are left out. -/
def fetchFromExternal (encryptedData : String) (now : Int) (reply : GatewayReply) :
    Except String TaskResponse :=
  match reply with
  | .sendError err => .error ("failed to send request: " ++ err)
  | .readError err => .error ("failed to read response: " ++ err)
  | .response statusCode body decoded =>
    if statusCode ≠ 200 then
      .error ("external endpoint returned status " ++ toString statusCode ++ ": " ++ body)
    else
      match decoded with
      | some response => .ok response
      | none => .ok { Result := body, Status := "success", TaskID := generateTaskID encryptedData now }

/-! ## HTTP handlers -/

/-- What a handler sends back: a JSON body, an `http.Error`, or nothing because it panicked. -/
inductive Reply (α : Type) where
  | ok (body : α)
  | httpError (msg : String) (code : Nat)
  | panicked
deriving DecidableEq

structure ProcessTaskBody where
  taskId : String
  leader : String
  isLeader : Bool
  status : String
deriving DecidableEq

structure GetResultBody where
  taskId : String
  result : String
  status : String
deriving DecidableEq

structure GetLeaderBody where
  currentRound : Nat
  leader : String
  me : String
  isLeader : Bool
deriving DecidableEq

/-- The goroutine started by `handleProcessTask` for `req`, run with the gateway reply. -/
def processTaskWorker (c : Coprocessor) (req : TaskRequest) (now : Int) (reply : GatewayReply) :
    Coprocessor :=
  match fetchFromExternal req.EncryptedData now reply with
  | .error _ => c
  | .ok result => { c with results := c.results.set req.TaskID result.Result }

/-- The handler `handleProcessTask`: the new state, the reply, and the request for which a
worker goroutine (one gateway call) was started, if any. `body` is the decoded request body. -/
def handleProcessTask (c : Coprocessor) (method : String) (body : Except String TaskRequest)
    (now : Int) (validatorList : List String) :
    Coprocessor × Reply ProcessTaskBody × Option TaskRequest :=
  if method ≠ "POST" then (c, .httpError "Method not allowed" 405, none)
  else
    match body with
    | .error err => (c, .httpError err 400, none)
    | .ok req =>
      match (electLeader c now validatorList).2 with
      | none => ((electLeader c now validatorList).1, .panicked, none)
      | some leader =>
        ((electLeader c now validatorList).1,
         .ok { taskId := req.TaskID
               leader := leader
               isLeader := (electLeader c now validatorList).1.isLeader
               status := "submitted" },
         if (electLeader c now validatorList).1.isLeader then some req else none)

/-- The handler `handleSubmitAttestation`; `body` is the decoded request body. -/
def handleSubmitAttestation (c : Coprocessor) (method : String)
    (body : Except String AttestationData) : Coprocessor × Reply String :=
  if method ≠ "POST" then (c, .httpError "Method not allowed" 405)
  else
    match body with
    | .error err => (c, .httpError err 400)
    | .ok att =>
      if !c.validators.flag att.Validator then (c, .httpError "Invalid validator" 401)
      else
        ({ c with
             attestations :=
               c.attestations.set att.TaskID
                 (((c.attestations att.TaskID).getD GoMap.empty).set att.Validator
                   att.Attestation) },
         .ok "attestation submitted")

/-- The handler `handleGetResult` for the query parameter `taskId`. -/
def handleGetResult (c : Coprocessor) (taskID : String) : Reply GetResultBody :=
  if taskID = "" then .httpError "taskId parameter required" 400
  else
    .ok { taskId := taskID
          result := c.results.str taskID
          status := if (c.results taskID).isSome then "completed" else "pending" }

/-- The handler `handleGetLeader`. -/
def handleGetLeader (c : Coprocessor) (now : Int) (validatorList : List String) :
    Coprocessor × Reply GetLeaderBody :=
  match (electLeader c now validatorList).2 with
  | none => ((electLeader c now validatorList).1, .panicked)
  | some leader =>
    ((electLeader c now validatorList).1,
     .ok { currentRound := (electLeader c now validatorList).1.currentRound
           leader := leader
           me := (electLeader c now validatorList).1.address
           isLeader := (electLeader c now validatorList).1.isLeader })

/-! ## Sequential runs of task submissions -/

/-- One task submission: the request, the wall-clock time at which it is handled and the
enumeration of the validator map seen by the election it triggers. -/
structure Submission where
  req : TaskRequest
  now : Int
  validatorList : List String

/-- Handle the submissions one after the other; returns the final state and the requests
for which a gateway call was started, in order. -/
def submitAll : Coprocessor → List Submission → Coprocessor × List TaskRequest
  | c, [] => (c, [])
  | c, s :: rest =>
    ((submitAll (handleProcessTask c "POST" (.ok s.req) s.now s.validatorList).1 rest).1,
     (handleProcessTask c "POST" (.ok s.req) s.now s.validatorList).2.2.toList ++
       (submitAll (handleProcessTask c "POST" (.ok s.req) s.now s.validatorList).1 rest).2)

/-- The node is the leader (its `isLeader` flag is set once the election of the submission has
run, and the election did not panic) at every submission of the run. -/
def leaderAtEach : Coprocessor → List Submission → Bool
  | _, [] => true
  | c, s :: rest =>
    (electLeader c s.now s.validatorList).2.isSome &&
      (electLeader c s.now s.validatorList).1.isLeader &&
      leaderAtEach (electLeader c s.now s.validatorList).1 rest

/-! ## A concrete node -/

def demoAddress : String := "0x9f86d081884c7d659a2feaa0c55ad015a3bf4f1b2b0b822cd15d6c15b0f00a08"

/-- A node as `main` builds it, started at Unix time 1790000000. -/
def demoNode : Coprocessor := SetupValidators (NewCoprocessor demoAddress 1790000000)

def demoRequest : TaskRequest := { EncryptedData := "payload", TaskID := "T1", Caller := "alice" }

/-- The entry `(t, v)` of the attestation table: what `c.attestations[t][v]` holds, if anything. -/
def attestationAt (c : Coprocessor) (t v : String) : Option String :=
  (c.attestations t).bind fun m => m v

/-- A task submission followed by the completion of the worker it started (if any) with the
given gateway reply. -/
def submitAndComplete (c : Coprocessor) (s : Submission) (doneAt : Int) (reply : GatewayReply) :
    Coprocessor :=
  match (handleProcessTask c "POST" (.ok s.req) s.now s.validatorList).2.2 with
  | none => (handleProcessTask c "POST" (.ok s.req) s.now s.validatorList).1
  | some d =>
    processTaskWorker (handleProcessTask c "POST" (.ok s.req) s.now s.validatorList).1 d doneAt reply

/-- An enumeration of the validator map of `demoNode` under which round 17900001 elects the
node itself. -/
def demoLeaderList : List String := ["0x3333", "0x4444", demoAddress, "0x5555"]

/-- The submission of `demoRequest` at the given time. -/
def demoSubmission (now : Int) : Submission :=
  { req := demoRequest, now := now, validatorList := demoLeaderList }

/-- A successful gateway reply carrying `result`. -/
def demoReply (result : String) : GatewayReply :=
  .response 200 "" (some { Result := result, Status := "success", TaskID := "T1" })

/-! ## Auxiliary facts -/

theorem goMap_set_apply {V : Type} (m : GoMap V) (k : String) (v : V) (a : String) :
    (m.set k v) a = if a = k then some v else m a := rfl

theorem enumerates_of_perm (l : List String) (c : Coprocessor)
    (hp : l.Perm ["0x3333", "0x4444", "0x5555", c.address])
    (hnd : ["0x3333", "0x4444", "0x5555", c.address].Nodup)
    (hv : ∀ a, c.validators a = none) :
    Enumerates l (SetupValidators c).validators := by
  refine ⟨hp.nodup_iff.mpr hnd, fun a => ?_⟩
  rw [hp.mem_iff]
  simp only [SetupValidators, GoMap.set, hv]
  by_cases h1 : a = c.address <;> by_cases h2 : a = "0x5555" <;> by_cases h3 : a = "0x4444" <;>
    by_cases h4 : a = "0x3333" <;> simp [h1, h2, h3, h4]

theorem demoNode_enumerates (l : List String)
    (hp : l.Perm ["0x3333", "0x4444", "0x5555", demoAddress]) :
    Enumerates l demoNode.validators :=
  enumerates_of_perm l (NewCoprocessor demoAddress 1790000000) hp (by decide) (fun _ => rfl)

theorem electLeader_frame (c : Coprocessor) (now : Int) (validatorList : List String) :
    (electLeader c now validatorList).1.address = c.address ∧
    (electLeader c now validatorList).1.validators = c.validators ∧
    (electLeader c now validatorList).1.results = c.results ∧
    (electLeader c now validatorList).1.tasks = c.tasks ∧
    (electLeader c now validatorList).1.attestations = c.attestations := by
  unfold electLeader
  simp only
  split_ifs <;> (try split) <;> exact ⟨rfl, rfl, rfl, rfl, rfl⟩

theorem handleProcessTask_state (c : Coprocessor) (req : TaskRequest) (now : Int)
    (validatorList : List String) :
    (handleProcessTask c "POST" (.ok req) now validatorList).1 =
      (electLeader c now validatorList).1 := by
  unfold handleProcessTask
  simp only [ne_eq, not_true_eq_false, if_false]
  split <;> rfl

theorem handleProcessTask_spawn (c : Coprocessor) (req : TaskRequest) (now : Int)
    (validatorList : List String) (leader : String)
    (hl : (electLeader c now validatorList).2 = some leader) :
    (handleProcessTask c "POST" (.ok req) now validatorList).2.2 =
      if (electLeader c now validatorList).1.isLeader then some req else none := by
  unfold handleProcessTask
  simp only [ne_eq, not_true_eq_false, if_false, hl]

theorem fetchFromExternal_fails (encryptedData : String) (now : Int) (reply : GatewayReply)
    (hfail : ∀ body decoded, reply ≠ .response 200 body decoded) :
    ∃ e, fetchFromExternal encryptedData now reply = .error e := by
  cases reply with
  | sendError err => exact ⟨_, rfl⟩
  | readError err => exact ⟨_, rfl⟩
  | response statusCode body decoded =>
    by_cases hs : statusCode = 200
    · exact absurd (by rw [hs]) (hfail body decoded)
    · refine ⟨"external endpoint returned status " ++ toString statusCode ++ ": " ++ body, ?_⟩
      simp only [fetchFromExternal, ne_eq, hs, not_false_eq_true, if_true]

/-! ## Leader election -/

/-- C10 (failing input): for round 17900000, the round of Unix time 1790000000, the low 64 bits
of the seed have bit 63 set, so `seed.Int64()` is negative; with the four validators of a
freshly set up node the index `seed.Int64() % 4` is `-3`, the read `validatorList[leaderIndex]`
panics and no leader is elected. -/
theorem leaderIndex_negative_at_17900000 :
    toUint64 (Int.tdiv 1790000000 100) = 17900000 ∧
    seed 17900000 % 18446744073709551616 = 0xc67f3e66e2b10ced ∧
    bigInt64 (seed 17900000) = -4143524520546726675 ∧
    leaderIndex 17900000 4 = -3 ∧
    (electLeader demoNode 1790000000 ["0x3333", "0x4444", "0x5555", demoAddress]).2 = none := by
  decide

/-- C1 (failing input): in round 17900001 the same node with the same validator map elects
`0x5555` under one enumeration of the map and `0x4444` under another. -/
theorem electLeader_depends_on_enumeration :
    Enumerates ["0x3333", "0x4444", "0x5555", demoAddress] demoNode.validators ∧
    Enumerates [demoAddress, "0x5555", "0x4444", "0x3333"] demoNode.validators ∧
    (electLeader demoNode 1790000100 ["0x3333", "0x4444", "0x5555", demoAddress]).2
      = some "0x5555" ∧
    (electLeader demoNode 1790000100 [demoAddress, "0x5555", "0x4444", "0x3333"]).2
      = some "0x4444" :=
  ⟨demoNode_enumerates _ (List.Perm.refl _), demoNode_enumerates _ (by decide), by decide,
    by decide⟩

/-- C2 (counterexample): a node with an empty validator map gets its own address back from
`electLeader`. -/
theorem electLeader_empty_returns_own_address :
    (electLeader (NewCoprocessor demoAddress 1790000000) 1790000100 []).2
      = some (NewCoprocessor demoAddress 1790000000).address := by
  decide

/-- C2 (amended): with an empty validator map `electLeader` returns the own address of the
node, the value it also returns when the node itself is elected, and leaves the `isLeader` flag
and the validator map as they were. -/
theorem electLeader_empty_registry (c : Coprocessor) (now : Int) (validatorList : List String)
    (hempty : ∀ a, c.validators a = none) (henum : Enumerates validatorList c.validators) :
    (electLeader c now validatorList).2 = some c.address ∧
    (electLeader c now validatorList).1.isLeader = c.isLeader ∧
    (electLeader c now validatorList).1.validators = c.validators := by
  have hnil : validatorList = [] := by
    cases validatorList with
    | nil => rfl
    | cons a l =>
      have := (henum.2 a).mp (List.mem_cons_self a l)
      rw [hempty a] at this
      exact absurd this (by simp)
  subst hnil
  unfold electLeader
  simp only [List.length_nil, gt_iff_lt, lt_self_iff_false, if_false]
  split_ifs <;> exact ⟨rfl, rfl, rfl⟩

theorem electLeader_empty_registry_witness :
    Enumerates [] (NewCoprocessor demoAddress 1790000000).validators ∧
    (electLeader (NewCoprocessor demoAddress 1790000000) 1790000100 []).2 = some demoAddress ∧
    (electLeader (NewCoprocessor demoAddress 1790000000) 1790000100 []).1.isLeader = false :=
  have hempty : ∀ a, (NewCoprocessor demoAddress 1790000000).validators a = none := fun _ => rfl
  have henum : Enumerates [] (NewCoprocessor demoAddress 1790000000).validators :=
    ⟨List.nodup_nil, fun a => by simp [hempty a]⟩
  ⟨henum,
    (electLeader_empty_registry (NewCoprocessor demoAddress 1790000000) 1790000100 []
      hempty henum).1,
    (electLeader_empty_registry (NewCoprocessor demoAddress 1790000000) 1790000100 []
      hempty henum).2.1⟩

/-- C3 (failing input): Unix times 1790000100 and 1790000150 lie in the same election window;
the first call of `electLeader` elects `0x5555`, the second one, on the unchanged validator map,
returns the own address of the node, and `handleGetLeader` then names the node as leader while
its `isLeader` flag is false. -/
theorem electLeader_same_window_differs :
    toUint64 (Int.tdiv 1790000100 100) = toUint64 (Int.tdiv 1790000150 100) ∧
    (electLeader demoNode 1790000100 ["0x3333", "0x4444", "0x5555", demoAddress]).2
      = some "0x5555" ∧
    (electLeader (electLeader demoNode 1790000100 ["0x3333", "0x4444", "0x5555", demoAddress]).1
        1790000150 ["0x3333", "0x4444", "0x5555", demoAddress]).2 = some demoAddress ∧
    (handleGetLeader (electLeader demoNode 1790000100 ["0x3333", "0x4444", "0x5555", demoAddress]).1
        1790000150 ["0x3333", "0x4444", "0x5555", demoAddress]).2
      = .ok { currentRound := 17900001, leader := demoAddress, me := demoAddress,
              isLeader := false } := by
  decide

/-- C9 (failing input): a node that is not the leader of round 17900001 (the election named
`0x5555`) answers a task submission in that round with `isLeader = false` and its own address
as the leader; no worker is started. -/
theorem handleProcessTask_non_leader_names_itself :
    (electLeader demoNode 1790000100 ["0x3333", "0x4444", "0x5555", demoAddress]).2
      = some "0x5555" ∧
    (handleProcessTask
        (electLeader demoNode 1790000100 ["0x3333", "0x4444", "0x5555", demoAddress]).1
        "POST" (.ok demoRequest) 1790000150 ["0x3333", "0x4444", "0x5555", demoAddress]).2
      = (.ok { taskId := "T1", leader := demoAddress, isLeader := false, status := "submitted" },
         none) := by
  decide

/-! ## Attestations -/

/-- C4: a submission whose validator is not registered (the key is absent from the validator
map, or not flagged `true`) is answered with 401 `Invalid validator` and the state, the
attestation table included, is returned as it was; whatever the HTTP method, such a submission
is never accepted and never changes the state. -/
theorem handleSubmitAttestation_unauthorized (c : Coprocessor) (att : AttestationData)
    (h : c.validators att.Validator ≠ some true) :
    handleSubmitAttestation c "POST" (.ok att) = (c, .httpError "Invalid validator" 401) ∧
    (handleSubmitAttestation c "POST" (.ok att)).1.attestations = c.attestations ∧
    (∀ method, (handleSubmitAttestation c method (.ok att)).1 = c ∧
      ∀ b, (handleSubmitAttestation c method (.ok att)).2 ≠ .ok b) := by
  have hflag : c.validators.flag att.Validator = false := by
    unfold GoMap.flag
    cases hv : c.validators att.Validator with
    | none => rfl
    | some b =>
      cases b with
      | false => rfl
      | true => exact absurd hv h
  have hmain : handleSubmitAttestation c "POST" (.ok att)
      = (c, .httpError "Invalid validator" 401) := by
    unfold handleSubmitAttestation
    simp [hflag]
  refine ⟨hmain, by rw [hmain], fun method => ?_⟩
  unfold handleSubmitAttestation
  by_cases hm : method = "POST"
  · simp [hm, hflag]
  · simp [hm]

theorem handleSubmitAttestation_unauthorized_witness :
    demoNode.validators "0xdead" ≠ some true ∧
    handleSubmitAttestation demoNode "POST"
        (.ok { TaskID := "T1", Validator := "0xdead", Attestation := "ok", Timestamp := 0,
               Signature := "" })
      = (demoNode, .httpError "Invalid validator" 401) :=
  have h : demoNode.validators "0xdead" ≠ some true := by decide
  ⟨h, (handleSubmitAttestation_unauthorized demoNode
        { TaskID := "T1", Validator := "0xdead", Attestation := "ok", Timestamp := 0,
          Signature := "" } h).1⟩

theorem handleSubmitAttestation_accepted (c : Coprocessor) (att : AttestationData)
    (h : c.validators att.Validator = some true) :
    handleSubmitAttestation c "POST" (.ok att) =
      ({ c with
           attestations :=
             c.attestations.set att.TaskID
               (((c.attestations att.TaskID).getD GoMap.empty).set att.Validator
                 att.Attestation) },
       .ok "attestation submitted") := by
  unfold handleSubmitAttestation
  simp [GoMap.flag, h]

theorem attestationAt_accepted (c : Coprocessor) (att : AttestationData)
    (h : c.validators att.Validator = some true) (t v : String) :
    attestationAt (handleSubmitAttestation c "POST" (.ok att)).1 t v =
      if t = att.TaskID ∧ v = att.Validator then some att.Attestation else attestationAt c t v := by
  rw [handleSubmitAttestation_accepted c att h]
  unfold attestationAt
  by_cases ht : t = att.TaskID
  · by_cases hv : v = att.Validator
    · simp [ht, hv, goMap_set_apply]
    · subst ht
      cases hm : c.attestations att.TaskID <;> simp [hv, hm, GoMap.empty, goMap_set_apply]
  · simp [ht, goMap_set_apply]

theorem handleSubmitAttestation_registry (c : Coprocessor) (att : AttestationData)
    (h : c.validators att.Validator = some true) :
    (handleSubmitAttestation c "POST" (.ok att)).1.validators = c.validators := by
  rw [handleSubmitAttestation_accepted c att h]

/-- C5: an accepted submission `(T, A, p)` is answered with `attestation submitted`, makes the
entry `(T, A)` hold `p`, and leaves every other entry of the table, the other tasks and the
result table as they were. Hence, starting from a task without attestations, accepted
submissions from distinct validators `A` and `B` leave exactly `A ↦ payloadA, B ↦ payloadB`,
and a later resubmission from `A` changes the entry of `A` only. -/
theorem handleSubmitAttestation_upsert (c : Coprocessor) (a : AttestationData)
    (ha : c.validators a.Validator = some true) :
    (handleSubmitAttestation c "POST" (.ok a)).2 = .ok "attestation submitted" ∧
    attestationAt (handleSubmitAttestation c "POST" (.ok a)).1 a.TaskID a.Validator
      = some a.Attestation ∧
    (∀ t v, ¬ (t = a.TaskID ∧ v = a.Validator) →
      attestationAt (handleSubmitAttestation c "POST" (.ok a)).1 t v = attestationAt c t v) ∧
    (∀ t, t ≠ a.TaskID →
      (handleSubmitAttestation c "POST" (.ok a)).1.attestations t = c.attestations t) ∧
    (handleSubmitAttestation c "POST" (.ok a)).1.results = c.results ∧
    (∀ b a2 : AttestationData,
      c.validators b.Validator = some true →
      b.TaskID = a.TaskID → a2.TaskID = a.TaskID → a2.Validator = a.Validator →
      a.Validator ≠ b.Validator →
      (∀ v, attestationAt c a.TaskID v = none) →
      (∀ v,
        attestationAt
          (handleSubmitAttestation (handleSubmitAttestation c "POST" (.ok a)).1 "POST" (.ok b)).1
          a.TaskID v
        = if v = a.Validator then some a.Attestation
          else if v = b.Validator then some b.Attestation else none) ∧
      (∀ v,
        attestationAt
          (handleSubmitAttestation
            (handleSubmitAttestation (handleSubmitAttestation c "POST" (.ok a)).1 "POST"
              (.ok b)).1 "POST" (.ok a2)).1
          a.TaskID v
        = if v = a.Validator then some a2.Attestation
          else if v = b.Validator then some b.Attestation else none)) := by
  refine ⟨by rw [handleSubmitAttestation_accepted c a ha], ?_, ?_, ?_,
    by rw [handleSubmitAttestation_accepted c a ha], ?_⟩
  · rw [attestationAt_accepted c a ha]; simp
  · intro t v hne
    rw [attestationAt_accepted c a ha, if_neg hne]
  · intro t ht
    rw [handleSubmitAttestation_accepted c a ha]
    simp [goMap_set_apply, ht]
  · intro b a2 hb hbT ha2T ha2V hne hnone
    have hb1 : (handleSubmitAttestation c "POST" (.ok a)).1.validators b.Validator = some true := by
      rw [handleSubmitAttestation_registry c a ha]; exact hb
    have ha2 : (handleSubmitAttestation (handleSubmitAttestation c "POST" (.ok a)).1 "POST"
        (.ok b)).1.validators a2.Validator = some true := by
      rw [handleSubmitAttestation_registry _ b hb1, handleSubmitAttestation_registry c a ha, ha2V]
      exact ha
    constructor
    · intro v
      rw [attestationAt_accepted _ b hb1, attestationAt_accepted c a ha, hnone v, hbT]
      by_cases hva : v = a.Validator
      · have : v ≠ b.Validator := fun h => hne (hva.symm.trans h)
        simp [hva, hne]
      · simp [hva]
    · intro v
      rw [attestationAt_accepted _ a2 ha2, attestationAt_accepted _ b hb1,
        attestationAt_accepted c a ha, hnone v, hbT, ha2T, ha2V]
      by_cases hva : v = a.Validator
      · simp [hva]
      · simp [hva]

theorem handleSubmitAttestation_upsert_witness :
    demoNode.validators "0x3333" = some true ∧
    attestationAt
      (handleSubmitAttestation demoNode "POST"
        (.ok { TaskID := "T1", Validator := "0x3333", Attestation := "ok", Timestamp := 0,
               Signature := "" })).1 "T1" "0x3333" = some "ok" :=
  have h : demoNode.validators "0x3333" = some true := by decide
  ⟨h, (handleSubmitAttestation_upsert demoNode
        { TaskID := "T1", Validator := "0x3333", Attestation := "ok", Timestamp := 0,
          Signature := "" } h).2.1⟩

/-! ## Task dispatch -/

/-- C6 (counterexample): two submissions of the task `T1`, one second apart, on a node that is
the leader at both start two gateway calls for `T1`. -/
theorem two_submissions_two_gateway_calls :
    leaderAtEach demoNode [demoSubmission 1790000100, demoSubmission 1790000101] = true ∧
    ((submitAll demoNode [demoSubmission 1790000100, demoSubmission 1790000101]).2.filter
        (fun r => r.TaskID = "T1")).length = 2 := by
  decide

/-- C6 (amended): every submission handled while the node is the leader starts a gateway call
for its request, whatever was submitted before: the calls started by `N` submissions are the
`N` submitted requests, in order. -/
theorem submitAll_dispatches_each (c : Coprocessor) (subs : List Submission)
    (h : leaderAtEach c subs = true) :
    (submitAll c subs).2 = subs.map (fun s => s.req) ∧
    (submitAll c subs).2.length = subs.length := by
  have key : ∀ (subs : List Submission) (c : Coprocessor), leaderAtEach c subs = true →
      (submitAll c subs).2 = subs.map (fun s => s.req) := by
    intro subs
    induction subs with
    | nil => intro c _; rfl
    | cons s rest ih =>
      intro c h
      simp only [leaderAtEach, Bool.and_eq_true] at h
      obtain ⟨⟨hsome, hlead⟩, hrest⟩ := h
      obtain ⟨leader, hl⟩ := Option.isSome_iff_exists.mp hsome
      simp only [submitAll, List.map_cons]
      rw [handleProcessTask_state, handleProcessTask_spawn c s.req s.now s.validatorList leader hl,
        hlead, ih _ hrest]
      rfl
  refine ⟨key subs c h, ?_⟩
  rw [key subs c h, List.length_map]

theorem submitAll_dispatches_each_witness :
    leaderAtEach demoNode
      [demoSubmission 1790000100, demoSubmission 1790000101, demoSubmission 1790000102] = true ∧
    (submitAll demoNode
      [demoSubmission 1790000100, demoSubmission 1790000101, demoSubmission 1790000102]).2.length
      = 3 :=
  have h : leaderAtEach demoNode
      [demoSubmission 1790000100, demoSubmission 1790000101, demoSubmission 1790000102] = true := by
    decide
  ⟨h, (submitAll_dispatches_each demoNode _ h).2⟩

/-- C7 (counterexample): the task `T1` has the recorded result `r1`; it is submitted again on
the leader, the gateway answers `r2`, and the stored result of `T1` is then `r2`. -/
theorem resubmission_overwrites_result :
    (submitAndComplete demoNode (demoSubmission 1790000100) 1790000105
      (demoReply "r1")).results "T1" = some "r1" ∧
    (submitAndComplete
      (submitAndComplete demoNode (demoSubmission 1790000100) 1790000105 (demoReply "r1"))
      (demoSubmission 1790000120) 1790000125 (demoReply "r2")).results "T1" = some "r2" := by
  decide

/-- C7 (amended): handling a submission never changes the result table by itself; when the node
is not the leader, or when the gateway call fails, the result table is still unchanged once
the submission has run to completion; when the node is the leader and the gateway call
succeeds, the result of that task is overwritten with the new gateway result and no other
result changes. -/
theorem submitAndComplete_results (c : Coprocessor) (s : Submission) (doneAt : Int)
    (reply : GatewayReply) :
    (handleProcessTask c "POST" (.ok s.req) s.now s.validatorList).1.results = c.results ∧
    ((electLeader c s.now s.validatorList).1.isLeader = false →
      (submitAndComplete c s doneAt reply).results = c.results) ∧
    (∀ e, fetchFromExternal s.req.EncryptedData doneAt reply = .error e →
      (submitAndComplete c s doneAt reply).results = c.results) ∧
    (∀ r, (electLeader c s.now s.validatorList).2 ≠ none →
      (electLeader c s.now s.validatorList).1.isLeader = true →
      fetchFromExternal s.req.EncryptedData doneAt reply = .ok r →
      (submitAndComplete c s doneAt reply).results s.req.TaskID = some r.Result ∧
      ∀ t, t ≠ s.req.TaskID → (submitAndComplete c s doneAt reply).results t = c.results t) := by
  have hst := handleProcessTask_state c s.req s.now s.validatorList
  have hres := (electLeader_frame c s.now s.validatorList).2.2.1
  have hcases : (handleProcessTask c "POST" (.ok s.req) s.now s.validatorList).2.2 = none ∨
      (handleProcessTask c "POST" (.ok s.req) s.now s.validatorList).2.2 = some s.req := by
    cases hl : (electLeader c s.now s.validatorList).2 with
    | none => left; unfold handleProcessTask; simp [hl]
    | some leader =>
      rw [handleProcessTask_spawn c s.req s.now s.validatorList leader hl]
      cases (electLeader c s.now s.validatorList).1.isLeader <;> simp
  refine ⟨by rw [hst, hres], ?_, ?_, ?_⟩
  · intro hnl
    have hnone : (handleProcessTask c "POST" (.ok s.req) s.now s.validatorList).2.2 = none := by
      cases hl : (electLeader c s.now s.validatorList).2 with
      | none => unfold handleProcessTask; simp [hl]
      | some leader =>
        rw [handleProcessTask_spawn c s.req s.now s.validatorList leader hl, hnl]; rfl
    unfold submitAndComplete
    rw [hnone, hst, hres]
  · intro e he
    unfold submitAndComplete
    rcases hcases with hn | hs
    · rw [hn, hst, hres]
    · rw [hs]
      simp only [processTaskWorker, he]
      rw [hst, hres]
  · intro r hsome hlead hok
    obtain ⟨leader, hl⟩ := Option.ne_none_iff_exists'.mp hsome
    have hs : (handleProcessTask c "POST" (.ok s.req) s.now s.validatorList).2.2 = some s.req := by
      rw [handleProcessTask_spawn c s.req s.now s.validatorList leader hl, hlead]; rfl
    unfold submitAndComplete
    rw [hs]
    simp only [processTaskWorker, hok]
    rw [hst, hres]
    exact ⟨by simp [goMap_set_apply], fun t ht => by simp [goMap_set_apply, ht]⟩

theorem submitAndComplete_results_witness :
    (submitAndComplete demoNode (demoSubmission 1790000100) 1790000105
      (demoReply "r1")).results "T1" = some "r1" ∧
    (electLeader
      (submitAndComplete demoNode (demoSubmission 1790000100) 1790000105 (demoReply "r1"))
      1790000120 demoLeaderList).1.isLeader = true ∧
    (submitAndComplete
      (submitAndComplete demoNode (demoSubmission 1790000100) 1790000105 (demoReply "r1"))
      (demoSubmission 1790000120) 1790000125 (demoReply "r2")).results "T1" = some "r2" ∧
    (submitAndComplete
      (submitAndComplete demoNode (demoSubmission 1790000100) 1790000105 (demoReply "r1"))
      (demoSubmission 1790000120) 1790000125 (demoReply "r2")).results "T2"
      = (submitAndComplete demoNode (demoSubmission 1790000100) 1790000105
          (demoReply "r1")).results "T2" :=
  have hrec : (submitAndComplete demoNode (demoSubmission 1790000100) 1790000105
      (demoReply "r1")).results "T1" = some "r1" := by decide
  have hret : (electLeader
      (submitAndComplete demoNode (demoSubmission 1790000100) 1790000105 (demoReply "r1"))
      (demoSubmission 1790000120).now (demoSubmission 1790000120).validatorList).2 ≠ none := by
    decide
  have hlead : (electLeader
      (submitAndComplete demoNode (demoSubmission 1790000100) 1790000105 (demoReply "r1"))
      (demoSubmission 1790000120).now (demoSubmission 1790000120).validatorList).1.isLeader
      = true := by
    decide
  have hok : fetchFromExternal (demoSubmission 1790000120).req.EncryptedData 1790000125
      (demoReply "r2") = .ok { Result := "r2", Status := "success", TaskID := "T1" } := rfl
  ⟨hrec, hlead,
    ((submitAndComplete_results
        (submitAndComplete demoNode (demoSubmission 1790000100) 1790000105 (demoReply "r1"))
        (demoSubmission 1790000120) 1790000125 (demoReply "r2")).2.2.2
      { Result := "r2", Status := "success", TaskID := "T1" } hret hlead hok).1,
    ((submitAndComplete_results
        (submitAndComplete demoNode (demoSubmission 1790000100) 1790000105 (demoReply "r1"))
        (demoSubmission 1790000120) 1790000125 (demoReply "r2")).2.2.2
      { Result := "r2", Status := "success", TaskID := "T1" } hret hlead hok).2 "T2"
      (by decide)⟩

/-- C8 (counterexample): the leader dispatches `T1`, the gateway call fails with a timeout, and
the result query for `T1` answers `pending`. -/
theorem failed_dispatch_reported_pending :
    (handleProcessTask demoNode "POST" (.ok demoRequest) 1790000100 demoLeaderList).2.2
      = some demoRequest ∧
    handleGetResult
      (submitAndComplete demoNode (demoSubmission 1790000100) 1790000130
        (.sendError "context deadline exceeded")) "T1"
      = .ok { taskId := "T1", result := "", status := "pending" } := by
  decide

/-- C8 (amended): when the gateway call fails (send error or timeout, read error, or a status
other than 200) the worker leaves the state as it was. A later result query for the task
identifier of the request then answers 400 `taskId parameter required` if that identifier is
empty, and otherwise `completed` with the recorded result if one was recorded before and
`pending` with an empty result if none was. No reply of `handleGetResult` carries another
status. -/
theorem processTaskWorker_failure (c : Coprocessor) (req : TaskRequest) (now : Int)
    (reply : GatewayReply) (hfail : ∀ body decoded, reply ≠ .response 200 body decoded) :
    processTaskWorker c req now reply = c ∧
    handleGetResult (processTaskWorker c req now reply) req.TaskID
      = (if req.TaskID = "" then .httpError "taskId parameter required" 400
         else if (c.results req.TaskID).isSome then
           .ok { taskId := req.TaskID, result := c.results.str req.TaskID, status := "completed" }
         else .ok { taskId := req.TaskID, result := "", status := "pending" }) ∧
    (req.TaskID = "" →
      handleGetResult (processTaskWorker c req now reply) req.TaskID
        = .httpError "taskId parameter required" 400) ∧
    (req.TaskID ≠ "" → c.results req.TaskID = none →
      handleGetResult (processTaskWorker c req now reply) req.TaskID
        = .ok { taskId := req.TaskID, result := "", status := "pending" }) ∧
    (∀ r, req.TaskID ≠ "" → c.results req.TaskID = some r →
      handleGetResult (processTaskWorker c req now reply) req.TaskID
        = .ok { taskId := req.TaskID, result := r, status := "completed" }) ∧
    (∀ (c2 : Coprocessor) (t : String) (body : GetResultBody),
      handleGetResult c2 t = .ok body → body.status = "pending" ∨ body.status = "completed") := by
  have hsame : processTaskWorker c req now reply = c := by
    obtain ⟨e, he⟩ := fetchFromExternal_fails req.EncryptedData now reply hfail
    simp only [processTaskWorker, he]
  refine ⟨hsame, ?_, ?_, ?_, ?_, ?_⟩
  · rw [hsame]
    unfold handleGetResult
    by_cases hne : req.TaskID = ""
    · simp [hne]
    · cases hr : c.results req.TaskID <;> simp [hne, hr, GoMap.str]
  · intro he
    rw [hsame]
    simp [handleGetResult, he]
  · intro hne hnone
    rw [hsame]
    simp [handleGetResult, hne, hnone, GoMap.str]
  · intro r hne hsome
    rw [hsame]
    simp [handleGetResult, hne, hsome, GoMap.str]
  · intro c2 t body hb
    unfold handleGetResult at hb
    split_ifs at hb <;> (injection hb with hb; subst hb; simp)

theorem processTaskWorker_failure_witness :
    processTaskWorker demoNode demoRequest 1790000130 (.sendError "context deadline exceeded")
      = demoNode ∧
    handleGetResult
      (processTaskWorker demoNode demoRequest 1790000130
        (.sendError "context deadline exceeded")) "T1"
      = .ok { taskId := "T1", result := "", status := "pending" } ∧
    handleGetResult
      (processTaskWorker demoNode { EncryptedData := "payload", TaskID := "", Caller := "alice" }
        1790000130 (.response 503 "unavailable" none)) ""
      = .httpError "taskId parameter required" 400 :=
  have h : ∀ body decoded, GatewayReply.sendError "context deadline exceeded"
      ≠ .response 200 body decoded := fun _ _ hc => by cases hc
  have h2 : ∀ body decoded, GatewayReply.response 503 "unavailable" none
      ≠ .response 200 body decoded := fun _ _ hc => by cases hc
  ⟨(processTaskWorker_failure demoNode demoRequest 1790000130
      (.sendError "context deadline exceeded") h).1,
    (processTaskWorker_failure demoNode demoRequest 1790000130
      (.sendError "context deadline exceeded") h).2.2.2.1 (by decide) rfl,
    (processTaskWorker_failure demoNode
      { EncryptedData := "payload", TaskID := "", Caller := "alice" } 1790000130
      (.response 503 "unavailable" none) h2).2.2.1 rfl⟩

end Symbiotic
